import Mathlib

/-!
Verification of the SubPalas subtitle addon (`src/addon.py`).

The Python source is shallowly embedded below.  Pure string manipulation is
modelled by executable functions over `List Char` (Python's `str` methods are
re-implemented structurally so that every definition evaluates inside the
kernel).  External collaborators (the Gemini translation capability, the
OpenSubtitles provider, `json.loads` and the two `re` substitutions used by
the JSON-array recovery parser, the filesystem) are modelled as explicit
oracle parameters, exactly at the call boundaries the source uses them.
-/

/-! ## Python string primitives (structural re-implementations) -/

/-- Python `str.isspace` characters relevant to `str.strip()` / `str.split()`. -/
def pyIsSpace (c : Char) : Bool :=
  c = ' ' || c = '\t' || c = '\n' || c = '\x0d' || c = '\x0b' || c = '\x0c'

/-- `startsWithList p l` : the list `l` starts with prefix list `p`. -/
def startsWithList : List Char → List Char → Bool
  | [], _ => true
  | _ :: _, [] => false
  | p :: ps, c :: cs => p = c && startsWithList ps cs

/-- `hasSubList p l` : `p` occurs as a contiguous sublist of `l`
(Python's `p in l` for strings). -/
def hasSubList (pat : List Char) : List Char → Bool
  | [] => pat.isEmpty
  | c :: cs => startsWithList pat (c :: cs) || hasSubList pat cs

/-- Python `str.replace` (all non-overlapping occurrences, left to right);
fuel-driven so that it is structurally recursive.  With `fuel ≥ l.length`
the fuel never runs out. -/
def chReplaceFuel (pat rep : List Char) : Nat → List Char → List Char
  | _, [] => []
  | 0, l => l
  | f + 1, c :: cs =>
    if startsWithList pat (c :: cs) && !pat.isEmpty then
      rep ++ chReplaceFuel pat rep f (List.drop (pat.length - 1) cs)
    else
      c :: chReplaceFuel pat rep f cs

/-- Python `str.strip()` (both ends, whitespace). -/
def chTrim (l : List Char) : List Char :=
  ((l.dropWhile pyIsSpace).reverse.dropWhile pyIsSpace).reverse

/-- Split on a (non-empty) separator list, keeping empty pieces, as Python's
`str.split(sep)` and Lean's `String.splitOn` do; fuel-driven. -/
def chSplitOnFuel (sep : List Char) : Nat → List Char → List Char → List (List Char)
  | _, [], acc => [acc.reverse]
  | 0, l, acc => [acc.reverse ++ l]
  | f + 1, c :: cs, acc =>
    if startsWithList sep (c :: cs) && !sep.isEmpty then
      acc.reverse :: chSplitOnFuel sep f (List.drop (sep.length - 1) cs) []
    else
      chSplitOnFuel sep f cs (c :: acc)

/-- Python `sep.join` on character lists. -/
def chIntercalate (sep : List Char) : List (List Char) → List Char
  | [] => []
  | [x] => x
  | x :: y :: rest => x ++ sep ++ chIntercalate sep (y :: rest)

/-- Python `str.split()` with no argument: split on whitespace runs,
discarding empty pieces. -/
def pySplitWsAux : List Char → List Char → List (List Char)
  | [], acc => if acc.isEmpty then [] else [acc.reverse]
  | c :: cs, acc =>
    if pyIsSpace c then
      if acc.isEmpty then pySplitWsAux cs [] else acc.reverse :: pySplitWsAux cs []
    else
      pySplitWsAux cs (c :: acc)

/-- ASCII lower-casing, as applied by Python `str.lower()` to the ASCII
release-name strings the source feeds it. -/
def pyToLowerChar (c : Char) : Char :=
  if 'A' ≤ c && c ≤ 'Z' then Char.ofNat (c.toNat + 32) else c

/-- Python `str.strip(chr(34))`: remove all leading and trailing
double-quote characters. -/
def chStripQuotes (l : List Char) : List Char :=
  ((l.dropWhile (fun c => c = '"')).reverse.dropWhile (fun c => c = '"')).reverse

/-- Decimal digit run to `Nat`; `none` if empty or a non-digit occurs.
Models Python `int(...)` on the non-negative inputs the source passes it. -/
def chParseNatAux : List Char → Nat → Option Nat
  | [], acc => some acc
  | c :: cs, acc =>
    if c.isDigit then chParseNatAux cs (acc * 10 + (c.toNat - 48)) else none

def chParseNat (l : List Char) : Option Nat :=
  match l with
  | [] => none
  | _ => chParseNatAux l 0

/-! String-level wrappers around the character-list primitives. -/

def sReplace (s pat rep : String) : String :=
  ⟨chReplaceFuel pat.data rep.data s.data.length s.data⟩

def sTrim (s : String) : String := ⟨chTrim s.data⟩

def sSplitOn (s sep : String) : List String :=
  (chSplitOnFuel sep.data s.data.length s.data []).map (fun l => ⟨l⟩)

def sIntercalate (sep : String) (xs : List String) : String :=
  ⟨chIntercalate sep.data (xs.map String.data)⟩

def sContains (s pat : String) : Bool := hasSubList pat.data s.data

def sStartsWith (s pat : String) : Bool := startsWithList pat.data s.data

def sEndsWith (s pat : String) : Bool := startsWithList pat.data.reverse s.data.reverse

def sToLower (s : String) : String := ⟨s.data.map pyToLowerChar⟩

def sLen (s : String) : Nat := s.data.length

/-- Python `s.split(sep, 1)[-1]`: everything after the first occurrence of
`sep` (the whole string when `sep` does not occur). -/
def afterFirst (s sep : String) : String :=
  match sSplitOn s sep with
  | [] => s
  | [_] => s
  | _ :: rest => sIntercalate sep rest

/-- Python `s.rsplit(sep, 1)[0]`: everything before the last occurrence of
`sep` (the whole string when `sep` does not occur). -/
def beforeLast (s sep : String) : String :=
  match sSplitOn s sep with
  | [] => s
  | [_] => s
  | parts => sIntercalate sep parts.dropLast

/-- Python `s[1:-1]` on character data. -/
def sDropEnds (s : String) : String := ⟨(s.data.drop 1).dropLast⟩

/-! ## Embedding of `src/addon.py` -/

/-- `get_file_hash` (addon.py lines 59-65).  `Option Nat`/`Option String`
model Python's `None` defaults; Python truthiness (`if season and episode:`,
`if video_hash:`) makes `0` and `""` behave like absence. -/
def get_file_hash (imdbId : String) (season episode : Option Nat)
    (videoHash : Option String) : String :=
  let base := imdbId
  let base :=
    match season, episode with
    | some s, some e =>
      if s ≠ 0 && e ≠ 0 then base ++ "_S" ++ toString s ++ "E" ++ toString e else base
    | _, _ => base
  match videoHash with
  | some h => if h ≠ "" then base ++ "_" ++ h else base
  | none => base

/-- `clean_filename` (addon.py lines 67-68). -/
def clean_filename (name : String) : String :=
  sToLower (sReplace (sReplace name "." " ") "-" " ")

/-- `wrap_text` (addon.py lines 70-83). -/
def wrap_text (s : String) (width : Nat) : String :=
  let words := (pySplitWsAux s.data []).map (fun l => (⟨l⟩ : String))
  if words.isEmpty then s
  else
    let step := fun (acc : List String × String) (w : String) =>
      let (lines, cur) := acc
      if sLen cur + sLen w + (if cur ≠ "" then 1 else 0) > width then
        (lines ++ [cur], w)
      else
        (lines, sTrim (cur ++ " " ++ w))
    let (lines, cur) := words.foldl step ([], "")
    let lines := if cur ≠ "" then lines ++ [cur] else lines
    sIntercalate "\n" lines

/-- `sanitize_input_lines` (addon.py lines 85-90). -/
def sanitize_input_lines (lines : List String) : List String :=
  lines.map (fun t => sTrim (sReplace (sReplace (sReplace t "\r\n" " ") "\r" " ") "\n" " "))

/-- The Python standard-library calls `_parse_json_array_strict` makes,
modelled as oracles:
`stripFences` is `re.sub(r"(three backticks)(json)?", "", s)`;
`stripTrailComma` is `re.sub(r",(space)*(rbracket)", "(rbracket)", s)`;
`jsonLoads` is `json.loads` followed by the `isinstance(data, list)` test
(`none` = raised, `some none` = parsed but not a list, `some (some l)` =
a list whose items are already rendered by `str(x)`);
`reSplitQuotes` is `re.split` on a quote-comma-quote pattern. -/
structure PyLib where
  stripFences : String → String
  stripTrailComma : String → String
  jsonLoads : String → Option (Option (List String))
  reSplitQuotes : String → List String

/-- The preprocessing of `_parse_json_array_strict` (addon.py lines 97-102):
code-fence stripping, slicing to the outermost brackets, smart-quote
normalisation, trailing-comma removal. -/
def parsePreprocess (py : PyLib) (s : String) : String :=
  let s := if sContains s "```" then sTrim (py.stripFences s) else s
  let s :=
    if sContains s "[" && sContains s "]" then
      "[" ++ beforeLast (afterFirst s "[") "]" ++ "]"
    else s
  let s := sReplace (sReplace (sReplace s "“" "\"") "”" "\"") "’" ⟨[Char.ofNat 39]⟩
  py.stripTrailComma s

/-- The `json.loads` branch of `_parse_json_array_strict` (addon.py lines
103-107): accept only a list of the expected length (`none` both for a
raised exception and for falling through the length guard). -/
def parseFromJson (py : PyLib) (s : String) (expectedLen : Option Nat) :
    Option (List String) :=
  match py.jsonLoads s with
  | some (some data) =>
    if expectedLen = none || expectedLen = some data.length then
      some (data.map (fun x => sReplace (sReplace x "\r\n" "\n") "\r" "\n"))
    else none
  | _ => none

/-- The manual recovery branch of `_parse_json_array_strict` (addon.py
lines 110-117): strip outer brackets, split between quoted items, strip
quotes, re-check the length. -/
def recInner (s : String) : String :=
  if sStartsWith (sTrim s) "[" && sEndsWith (sTrim s) "]" then sDropEnds (sTrim s)
  else sTrim s

def recParts (py : PyLib) (s : String) : List String :=
  (py.reSplitQuotes (recInner s)).filterMap (fun p =>
    if sTrim p ≠ "" then some ⟨chStripQuotes (sTrim p).data⟩ else none)

def parseRecover (py : PyLib) (s : String) (expectedLen : Option Nat) :
    Option (List String) :=
  if expectedLen = none || expectedLen = some (recParts py s).length then
    some (recParts py s)
  else none

/-- `_parse_json_array_strict` (addon.py lines 95-120).  `none` models
`raise ValueError("invalid json array from model")`.  The length guard in
the source compares against the list before the `\r\n` normalising `map`;
the map preserves length, so guarding before or after it is the same test
(`parseFromJson` keeps the guard on the pre-map list). -/
def _parse_json_array_strict (py : PyLib) (s : String) (expectedLen : Option Nat) :
    Option (List String) :=
  match parseFromJson py (parsePreprocess py s) expectedLen with
  | some data => some data
  | none => parseRecover py (parsePreprocess py s) expectedLen

/-- `translate_batch_gemini` (addon.py lines 125-162).  `geminiKey` models
`GEMINI_API_KEY` being non-empty, `initOk` the `genai.GenerativeModel`
constructor not raising, and `gen k` the text of the model response on the
`k`-th `generate_content` attempt (`none` = the attempt raised).  The
second component counts how many `generate_content` attempts were made. -/
def tbgAttempt (py : PyLib) (expected : Nat) (resp : Option String) :
    Option (List String) :=
  match resp with
  | none => none
  | some raw => _parse_json_array_strict py (sTrim raw) (some expected)

def translate_batch_gemini (geminiKey : Bool) (initOk : Bool) (py : PyLib)
    (gen : Nat → Option String) (texts : List String) : Option (List String) × Nat :=
  if !geminiKey then (none, 0)
  else if !initOk then (none, 0)
  else
    match tbgAttempt py (sanitize_input_lines texts).length (gen 0) with
    | some r => (some r, 1)
    | none =>
      match tbgAttempt py (sanitize_input_lines texts).length (gen 1) with
      | some r => (some r, 2)
      | none => (none, 2)

/-! One-shot translation path. -/

def chMatchDigits : Nat → List Char → Option (List Char)
  | 0, l => some l
  | _ + 1, [] => none
  | n + 1, c :: cs => if c.isDigit then chMatchDigits n cs else none

def chMatchLit : List Char → List Char → Option (List Char)
  | [], l => some l
  | _ :: _, [] => none
  | p :: ps, c :: cs => if p = c then chMatchLit ps cs else none

/-- Matcher for the `HH:MM:SS,mmm` half of the SRT timestamp regex. -/
def chMatchClock (l : List Char) : Option (List Char) :=
  (((((chMatchDigits 2 l).bind (chMatchLit ":".data)).bind
    (chMatchDigits 2)).bind (chMatchLit ":".data)).bind
    (chMatchDigits 2)).bind (fun l => (chMatchLit ",".data l).bind (chMatchDigits 3))

/-- The full pattern of addon.py line 191 anchored at the head of `l`. -/
def srtTimestampAt (l : List Char) : Bool :=
  (((chMatchClock l).bind (chMatchLit " --> ".data)).bind chMatchClock).isSome

def hasSrtTimestampAux : List Char → Bool
  | [] => false
  | c :: cs => srtTimestampAt (c :: cs) || hasSrtTimestampAux cs

/-- `re.search(r"(SRT timestamp) --> (SRT timestamp)", s)` as a Bool
(addon.py line 191). -/
def hasSrtTimestamp (s : String) : Bool := hasSrtTimestampAux s.data

/-- `_one_shot_try` (addon.py lines 167-204), given the model response text
(`none` = `generate_content` raised; `some t` = the value of
`resp.text or ""`).  Mirrors the acceptance logic lines 189-193 exactly,
including the `return out or None` line. -/
def _one_shot_try (resp : Option String) : Option String :=
  match resp with
  | none => none
  | some t =>
    let out := sTrim t
    if hasSrtTimestamp out then some out
    else if out = "" then none
    else some out

/-- `translate_srt_one_shot` (addon.py lines 206-223).  `resp i clean` is the
response of candidate model `i` to the prompt built from `clean`. -/
def translate_srt_one_shot (geminiKey : Bool) (resp : Nat → String → Option String)
    (srtText : String) : Option String :=
  if !geminiKey then none
  else
    let srtClean := sTrim (sReplace srtText "\r\n" "\n")
    match _one_shot_try (resp 0 srtClean) with
    | some out => some out
    | none =>
      match _one_shot_try (resp 1 srtClean) with
      | some out => some out
      | none => _one_shot_try (resp 2 srtClean)

/-! OpenSubtitles search (`search_english_sub`, addon.py lines 228-323). -/

/-- Network interactions of `search_english_sub`: the moviehash query
(line 266), a `get_download_link` POST (line 231) and the IMDB catalog
query (line 290). -/
inductive SEffect where
  | hashQuery
  | downloadReq (fileId : Nat)
  | catalogQuery
deriving DecidableEq

/-- One catalog result item: presence of
`item["attributes"]["files"][0]["file_name"]` and `...["file_id"]`
(`none` models the per-item `KeyError`/`IndexError` paths). -/
structure CatFile where
  fileName : Option String
  fileId : Option Nat
deriving DecidableEq

/-- Provider responses, modelled as oracles.
`hashResp`: `none` = the moviehash request raised; `some (total, fidOpt)` =
a JSON body with `total_count = total` whose `data[0]...file_id` extraction
yields `fidOpt` (`none` = extraction raised).
`catResp`: same for the catalog query, with the full `data` list.
`dlLink`: `get_download_link` per file id (`none` = request failed or the
body had no `link`). -/
structure SearchEnv where
  osKey : Bool
  hashResp : Option (Nat × Option Nat)
  catResp : Option (Nat × List CatFile)
  dlLink : Nat → Option String

/-- The release keyword list of addon.py line 304. -/
def releaseKeywords : List String :=
  ["web", "webrip", "web-dl", "hdtv", "bluray", "amzn", "nf", "ntb"]

/-- The `for item in results` refinement loop (addon.py lines 307-314):
first item whose lower-cased file name contains every keyword; items whose
file-name extraction raises are skipped (`continue`). -/
def findRelease (keywords : List String) : List CatFile → Option CatFile
  | [] => none
  | it :: rest =>
    match it.fileName with
    | none => findRelease keywords rest
    | some fn =>
      if keywords.all (fun k => sContains (sToLower fn) k) then some it
      else findRelease keywords rest

/-- Tier 2 of `search_english_sub` (addon.py lines 277-323): the IMDB
catalog query ordered by download count, optional release refinement by
`filename_hint`, then `get_download_link` on the chosen item.
`unquoteFn` models `urllib.parse.unquote`. -/
def searchTier2 (env : SearchEnv) (filenameHint : Option String)
    (unquoteFn : String → String) (eff : List SEffect) :
    (Option String × String) × List SEffect :=
  let eff := eff ++ [SEffect.catalogQuery]
  match env.catResp with
  | none => ((none, "Not Found"), eff)
  | some (total, items) =>
    if total = 0 then ((none, "Not Found"), eff)
    else
      match items with
      | [] => ((none, "Not Found"), eff)
      | best0 :: _ =>
        let chosen :=
          match filenameHint with
          | none => (best0, "IMDB Generic")
          | some hint =>
            let hintClean := clean_filename (unquoteFn hint)
            let keywords := releaseKeywords.filter (fun k => sContains hintClean k)
            match findRelease keywords items with
            | some it =>
              (it, "Release Match (" ++ sIntercalate " " keywords ++ ")")
            | none => (best0, "IMDB Generic")
        match chosen.1.fileId with
        | none => ((none, "Not Found"), eff)
        | some fid =>
          let eff := eff ++ [SEffect.downloadReq fid]
          match env.dlLink fid with
          | some dl => ((some dl, chosen.2), eff)
          | none => ((none, "Not Found"), eff)

/-- `search_english_sub` (addon.py lines 238-323).  `season`/`episode` only
shape the catalog request parameters, never the control flow, and are
therefore not needed by the model.  Returns the `(link?, method)` pair and
the list of provider interactions performed. -/
def search_english_sub (env : SearchEnv) (imdbId : String)
    (videoHash : Option String) (filenameHint : Option String)
    (unquoteFn : String → String) : (Option String × String) × List SEffect :=
  if !env.osKey then ((none, "No API Key"), [])
  else
    match chParseNat (sReplace imdbId "tt" "").data with
    | none => ((none, "Bad ID"), [])
    | some _cleanId =>
      match videoHash with
      | none => searchTier2 env filenameHint unquoteFn []
      | some _h =>
        let eff := [SEffect.hashQuery]
        match env.hashResp with
        | none => searchTier2 env filenameHint unquoteFn eff
        | some (total, fidOpt) =>
          if 0 < total then
            match fidOpt with
            | none => searchTier2 env filenameHint unquoteFn eff
            | some fid =>
              let eff := eff ++ [SEffect.downloadReq fid]
              match env.dlLink fid with
              | some dl => ((some dl, "Hash Match"), eff)
              | none => searchTier2 env filenameHint unquoteFn eff
          else searchTier2 env filenameHint unquoteFn eff

/-! Worker (`worker`, addon.py lines 328-414). -/

/-- One parsed SRT block (addon.py lines 370-376): `head` is the joined
first two lines (index + timing line), `text` the space-joined rest. -/
structure Cue where
  head : String
  text : String
deriving DecidableEq

/-- The SRT block parser of the fallback path (addon.py lines 368-376):
split on blank lines, keep blocks with at least three lines.
`re.split(r"(two-or-more newlines)")` is modelled as splitting on the
two-newline separator; the leftover pieces this can produce are pure
leading/trailing newlines, removed by the `block.strip()` the source
applies before counting lines. -/
def parseSrtBlocks (content : String) : List Cue :=
  (sSplitOn content "\n\n").filterMap (fun block =>
    let lines := sSplitOn (sTrim block) "\n"
    if 3 ≤ lines.length then
      some ⟨sIntercalate "\n" (lines.take 2), sTrim (sIntercalate " " (lines.drop 2))⟩
    else none)

/-- `subs[i:i+40]` batching (addon.py line 387-388, `batch_size = 40`);
fuel-driven, with `fuel = l.length` the fuel never runs out. -/
def chunksOfFuel {α : Type} : Nat → List α → List (List α)
  | _, [] => []
  | 0, _ :: _ => []
  | f + 1, x :: xs => ((x :: xs).take 40) :: chunksOfFuel f ((x :: xs).drop 40)

def chunksOf40 {α : Type} (l : List α) : List (List α) := chunksOfFuel l.length l

/-- Python truthiness of the `texts_pt` value (`None` and `[]` are falsy),
as tested by `if texts_pt:` / `if not texts_pt:` (addon.py lines 394, 398). -/
def pyTruthy : Option (List String) → Bool
  | none => false
  | some l => !l.isEmpty

/-- The per-batch retry loop of the worker (addon.py lines 391-396): call
`translate_batch_gemini` up to twice, stopping at the first truthy result.
`initOk a` / `gen2 a` are the oracles of the `a`-th worker-level call.
Second component: total `generate_content` attempts made for this batch. -/
def workerChunkTranslate (geminiKey : Bool) (initOk : Nat → Bool) (py : PyLib)
    (gen2 : Nat → Nat → Option String) (texts : List String) :
    Option (List String) × Nat :=
  if pyTruthy (translate_batch_gemini geminiKey (initOk 0) py (gen2 0) texts).1 then
    translate_batch_gemini geminiKey (initOk 0) py (gen2 0) texts
  else
    ((translate_batch_gemini geminiKey (initOk 1) py (gen2 1) texts).1,
      (translate_batch_gemini geminiKey (initOk 0) py (gen2 0) texts).2
        + (translate_batch_gemini geminiKey (initOk 1) py (gen2 1) texts).2)

/-- `if not texts_pt: texts_pt = texts_en` (addon.py lines 398-399). -/
def chunkFinalTexts (r : Option (List String)) (textsEn : List String) : List String :=
  if pyTruthy r then r.getD [] else textsEn

/-- The per-cue rendering loop (addon.py lines 402-405):
`texts_pt[idx] if idx < len(texts_pt) else sub["text"]`, wrapped at 44. -/
def renderCues (tp : List String) : List Cue → Nat → List String
  | [], _ => []
  | sub :: rest, idx =>
    (sub.head ++ "\n" ++ wrap_text (tp.getD idx sub.text) 44 ++ "\n")
      :: renderCues tp rest (idx + 1)

/-- The Gemini-side oracles of the fallback path, indexed by batch ordinal
and worker-level attempt. -/
structure BatchEnv where
  geminiKey : Bool
  initOk : Nat → Nat → Bool
  py : PyLib
  gen : Nat → Nat → Nat → Option String

/-- The translation outcome the worker's retry loop produces for batch
ordinal `k` with cue batch `c`. -/
def chunkResult (b : BatchEnv) (k : Nat) (c : List Cue) : Option (List String) :=
  (workerChunkTranslate b.geminiKey (b.initOk k) b.py (b.gen k) (c.map Cue.text)).1

/-- `generate_content` attempts spent on batch ordinal `k`. -/
def chunkGenCount (b : BatchEnv) (k : Nat) (c : List Cue) : Nat :=
  (workerChunkTranslate b.geminiKey (b.initOk k) b.py (b.gen k) (c.map Cue.text)).2

/-- The lines appended to `final_srt_content` for one batch. -/
def renderChunk (b : BatchEnv) (k : Nat) (c : List Cue) : List String :=
  renderCues (chunkFinalTexts (chunkResult b k c) (c.map Cue.text)) c 0

/-- All batches in order, starting at batch ordinal `k`. -/
def renderChunks (b : BatchEnv) : Nat → List (List Cue) → List (List String)
  | _, [] => []
  | k, c :: rest => renderChunk b k c :: renderChunks b (k + 1) rest

def genCountChunks (b : BatchEnv) : Nat → List (List Cue) → Nat
  | _, [] => 0
  | k, c :: rest => chunkGenCount b k c + genCountChunks b (k + 1) rest

/-- The banner entry of the batch path (addon.py lines 379-382). -/
def bannerBatch (method model : String) : String :=
  "0\n00:00:01,000 --> 00:00:05,000\n[AI Sync: " ++ method ++ " | Model: "
    ++ model ++ " | mode=batch]\n"

/-- `final_srt_content` as assembled by the fallback path
(addon.py lines 378-407). -/
def workerFallback (b : BatchEnv) (method model : String) (subs : List Cue) :
    List String :=
  bannerBatch method model :: (renderChunks b 0 (chunksOf40 subs)).flatten

/-- The banner prefix of the one-shot path (addon.py lines 354-357). -/
def bannerOneShot (method model : String) : String :=
  "0\n00:00:01,000 --> 00:00:05,000\n[AI Sync: " ++ method ++ " | Model: "
    ++ model ++ " | mode=one-shot]\n\n"

/-- Externally visible side effects of one worker run. -/
inductive Effect where
  | searchCall
  | downloadCall (url : String)
  | batchGenCall
  | writeFile (path content : String)
deriving DecidableEq

/-- `CACHE_DIR/f"{cache_key}_translated.srt"` (addon.py line 329). -/
def finalPath (cacheKey : String) : String :=
  "subtitle_cache/" ++ cacheKey ++ "_translated.srt"

/-- Everything one `worker` run consumes: the artifact-existence check
(line 330), the search result, the EN subtitle download (`none` = request
failed; the value is `r.text` before the `\r\n` normalisation of line 346),
the one-shot responses, write successes, and batch oracles. -/
structure WorkerEnv where
  artifactExists : Bool
  searchResult : Option String × String
  download : String → Option String
  oneShotResp : Nat → String → Option String
  writeOk : Bool
  finalWriteOk : Bool
  batch : BatchEnv
  geminiModel : String
  cacheKey : String

/-- The fallback tail of the worker (addon.py lines 367-414): parse blocks,
translate batch-wise (each `generate_content` attempt is one
`batchGenCall`), write the joined document. -/
def fallbackEffects (env : WorkerEnv) (method content : String) : List Effect :=
  let subs := parseSrtBlocks content
  List.replicate (genCountChunks env.batch 0 (chunksOf40 subs)) Effect.batchGenCall
    ++ (if env.finalWriteOk then
          [Effect.writeFile (finalPath env.cacheKey)
            (sIntercalate "\n" (workerFallback env.batch method env.geminiModel subs))]
        else [])

/-- `worker` (addon.py lines 328-414) as its trace of side effects.  The
one-shot branch's external calls are folded into `oneShotResp`; a failed
one-shot write falls through to the fallback path (line 365). -/
def worker (env : WorkerEnv) : List Effect :=
  if env.artifactExists then []
  else
    Effect.searchCall ::
      match env.searchResult with
      | (none, _) => []
      | (some url, method) =>
        Effect.downloadCall url ::
          match env.download url with
          | none => []
          | some raw =>
            let content := sReplace raw "\r\n" "\n"
            match translate_srt_one_shot env.batch.geminiKey env.oneShotResp content with
            | some srtPt =>
              if env.writeOk then
                [Effect.writeFile (finalPath env.cacheKey)
                  (bannerOneShot method env.geminiModel ++ srtPt)]
              else fallbackEffects env method content
            | none => fallbackEffects env method content

/-! Delivery (`serve_subs`, addon.py lines 467-482). -/

structure HttpResp where
  body : String
  status : Nat
  contentType : Option String
deriving DecidableEq

/-- The placeholder payload of addon.py lines 478-481. -/
def placeholderBody : String :=
  "1\n00:00:01,000 --> 00:00:10,000\nTraduzindo com IA...\nAguarde alguns segundos e volte a abrir as legendas.\n\n"

def placeholderResp : HttpResp :=
  ⟨placeholderBody, 200, some "application/x-subrip"⟩

/-- The 60-iteration poll loop (addon.py lines 471-476).  `fileAt t` is the
cache file's content at poll tick `t` (`none` = absent).  A found file is
served by `send_from_directory` with the framework-chosen content type
(modelled as `none`). -/
def serveSubsAux (fileAt : Nat → Option String) : Nat → Nat → HttpResp
  | _, 0 => placeholderResp
  | t, fuel + 1 =>
    match fileAt t with
    | some content => ⟨content, 200, none⟩
    | none => serveSubsAux fileAt (t + 1) fuel

/-- `serve_subs` (addon.py lines 467-482). -/
def serve_subs (fileAt : Nat → Option String) : HttpResp :=
  serveSubsAux fileAt 0 60

/-! Request deduplication (`subtitles` route line 449-454 + the worker's
existence check, lines 328-331), as an interleaving model.  Each request
spawns one worker thread; a worker takes two atomic steps:
`check` (the `os.path.exists` test deciding whether to proceed) and
`run` (the whole pipeline followed by the artifact write).  A schedule is
the order in which the two workers take their steps. -/

inductive WPC where
  | start
  | running
  | done
deriving DecidableEq

structure DedupState where
  artifact : Bool
  pc : Fin 2 → WPC
  worked : Fin 2 → Bool

def dedupInit : DedupState :=
  ⟨false, fun _ => WPC.start, fun _ => false⟩

def dedupStep (s : DedupState) (w : Fin 2) : DedupState :=
  match s.pc w with
  | WPC.start =>
    if s.artifact then { s with pc := fun v => if v = w then WPC.done else s.pc v }
    else { s with pc := fun v => if v = w then WPC.running else s.pc v }
  | WPC.running =>
    { artifact := true,
      pc := fun v => if v = w then WPC.done else s.pc v,
      worked := fun v => if v = w then true else s.worked v }
  | WPC.done => s

def dedupRunFrom (s : DedupState) (sched : List (Fin 2)) : DedupState :=
  sched.foldl dedupStep s

def dedupRun (sched : List (Fin 2)) : DedupState := dedupRunFrom dedupInit sched

/-- How many of the two workers actually executed the pipeline. -/
def execCount (s : DedupState) : Nat :=
  (if s.worked 0 then 1 else 0) + (if s.worked 1 then 1 else 0)

/-! ## Helper lemmas -/

lemma renderCues_length (tp : List String) :
    ∀ (c : List Cue) (i : Nat), (renderCues tp c i).length = c.length := by
  intro c
  induction c with
  | nil => intro i; rfl
  | cons sub rest ih => intro i; simp [renderCues, ih]

lemma chunksOfFuel_flatten {α : Type} :
    ∀ (fuel : Nat) (l : List α), l.length ≤ fuel →
      (chunksOfFuel fuel l).flatten = l := by
  intro fuel
  induction fuel with
  | zero =>
    intro l hl
    cases l with
    | nil => rfl
    | cons x xs => simp at hl
  | succ f ih =>
    intro l hl
    cases l with
    | nil => rfl
    | cons x xs =>
      simp only [chunksOfFuel, List.flatten_cons]
      rw [ih ((x :: xs).drop 40) ?_, List.take_append_drop]
      have : (x :: xs).length ≤ f + 1 := hl
      simp only [List.length_drop]
      omega

lemma chunksOf40_flatten {α : Type} (l : List α) : (chunksOf40 l).flatten = l :=
  chunksOfFuel_flatten l.length l le_rfl

lemma chunksOfFuel_ne_nil {α : Type} :
    ∀ (fuel : Nat) (l : List α) (c : List α), c ∈ chunksOfFuel fuel l → c ≠ [] := by
  intro fuel
  induction fuel with
  | zero =>
    intro l c hc
    cases l with
    | nil => simp [chunksOfFuel] at hc
    | cons x xs => simp [chunksOfFuel] at hc
  | succ f ih =>
    intro l c hc
    cases l with
    | nil => simp [chunksOfFuel] at hc
    | cons x xs =>
      simp only [chunksOfFuel, List.mem_cons] at hc
      rcases hc with h | h
      · subst h; simp [List.take_cons]
      · exact ih _ _ h

lemma chunksOf40_ne_nil {α : Type} (l : List α) (c : List α)
    (hc : c ∈ chunksOf40 l) : c ≠ [] :=
  chunksOfFuel_ne_nil l.length l c hc

lemma forall2Append {α β : Type} {R : α → β → Prop} :
    ∀ {a b c d}, List.Forall₂ R a b → List.Forall₂ R c d →
      List.Forall₂ R (a ++ c) (b ++ d) := by
  intro a b c d h1 h2
  induction h1 with
  | nil => exact h2
  | cons hx _ ih => exact List.Forall₂.cons hx ih

lemma renderCues_forall2 (tp : List String) :
    ∀ (c : List Cue) (i : Nat),
      List.Forall₂ (fun sub entry =>
        ∃ t, entry = sub.head ++ "\n" ++ wrap_text t 44 ++ "\n") c (renderCues tp c i) := by
  intro c
  induction c with
  | nil => intro i; exact List.Forall₂.nil
  | cons sub rest ih =>
    intro i
    exact List.Forall₂.cons ⟨tp.getD i sub.text, rfl⟩ (ih (i + 1))

lemma renderChunks_forall2 (b : BatchEnv) :
    ∀ (k : Nat) (cs : List (List Cue)),
      List.Forall₂ (fun sub entry =>
        ∃ t, entry = sub.head ++ "\n" ++ wrap_text t 44 ++ "\n")
        cs.flatten (renderChunks b k cs).flatten := by
  intro k cs
  induction cs generalizing k with
  | nil => exact List.Forall₂.nil
  | cons c rest ih =>
    simp only [List.flatten_cons, renderChunks]
    exact forall2Append (renderCues_forall2 _ c 0) (ih (k + 1))

lemma getD_at_split {α : Type} (d : α) :
    ∀ (xs : List α) (y : α) (ys : List α), (xs ++ y :: ys).getD xs.length d = y := by
  intro xs
  induction xs with
  | nil => intro y ys; rfl
  | cons x rest ih => intro y ys; simpa using ih y ys

lemma renderCues_orig :
    ∀ (c pre : List Cue),
      renderCues ((pre ++ c).map Cue.text) c pre.length =
        c.map (fun s => s.head ++ "\n" ++ wrap_text s.text 44 ++ "\n") := by
  intro c
  induction c with
  | nil => intro pre; rfl
  | cons sub rest ih =>
    intro pre
    simp only [renderCues, List.map_cons]
    have hg : ((pre ++ sub :: rest).map Cue.text).getD pre.length sub.text = sub.text := by
      simpa using getD_at_split sub.text (pre.map Cue.text) sub.text (rest.map Cue.text)
    rw [hg]
    congr 1
    simpa [List.append_assoc] using ih (pre ++ [sub])

lemma renderCues_zip :
    ∀ (c : List Cue) (pre tp : List String), tp.length = c.length →
      renderCues (pre ++ tp) c pre.length =
        List.zipWith (fun s t => s.head ++ "\n" ++ wrap_text t 44 ++ "\n") c tp := by
  intro c
  induction c with
  | nil =>
    intro pre tp h
    rfl
  | cons sub rest ih =>
    intro pre tp h
    cases tp with
    | nil => simp at h
    | cons t ts =>
      simp only [renderCues, List.zipWith_cons_cons]
      have hg : (pre ++ t :: ts).getD pre.length sub.text = t :=
        getD_at_split sub.text pre t ts
      rw [hg]
      congr 1
      have h2 := ih (pre ++ [t]) ts (by simpa using h)
      simpa [List.append_assoc] using h2

lemma renderChunks_getElem? (b : BatchEnv) :
    ∀ (cs : List (List Cue)) (k i : Nat),
      (renderChunks b k cs)[i]? = (cs[i]?).map (fun c => renderChunk b (k + i) c) := by
  intro cs
  induction cs with
  | nil => intro k i; simp [renderChunks]
  | cons c rest ih =>
    intro k i
    cases i with
    | zero => simp [renderChunks]
    | succ j =>
      simp only [renderChunks, List.getElem?_cons_succ]
      rw [ih (k + 1) j]
      have : k + 1 + j = k + (j + 1) := by omega
      rw [this]

lemma sanitize_length (ts : List String) :
    (sanitize_input_lines ts).length = ts.length := by
  simp [sanitize_input_lines]

lemma parseFromJson_length (py : PyLib) (s : String) (n : Nat) (r : List String)
    (h : parseFromJson py s (some n) = some r) : r.length = n := by
  unfold parseFromJson at h
  split at h
  next data heq =>
    split at h
    · next hguard =>
      simp only [Option.some.injEq] at h
      subst h
      simp at hguard
      simp [hguard]
    · exact absurd h (by simp)
  next => exact absurd h (by simp)

lemma parseRecover_length (py : PyLib) (s : String) (n : Nat) (r : List String)
    (h : parseRecover py s (some n) = some r) : r.length = n := by
  unfold parseRecover at h
  split at h
  · next hguard =>
    simp only [Option.some.injEq] at h
    subst h
    simp at hguard
    omega
  · exact absurd h (by simp)

lemma parse_strict_length (py : PyLib) (s : String) (n : Nat) (r : List String)
    (h : _parse_json_array_strict py s (some n) = some r) : r.length = n := by
  unfold _parse_json_array_strict at h
  split at h
  next data heq =>
    simp only [Option.some.injEq] at h
    subst h
    exact parseFromJson_length py _ n _ heq
  next => exact parseRecover_length py _ n _ h

lemma tbgAttempt_length (py : PyLib) (expected : Nat) (resp : Option String)
    (r : List String) (h : tbgAttempt py expected resp = some r) :
    r.length = expected := by
  unfold tbgAttempt at h
  split at h
  · simp at h
  · exact parse_strict_length py _ _ _ h

lemma translate_batch_gemini_length (geminiKey : Bool) (initOk : Bool) (py : PyLib)
    (gen : Nat → Option String) (texts : List String) (r : List String)
    (h : (translate_batch_gemini geminiKey initOk py gen texts).1 = some r) :
    r.length = texts.length := by
  unfold translate_batch_gemini at h
  split at h
  · simp at h
  · split at h
    · simp at h
    · rw [← sanitize_length texts]
      split at h
      next r0 heq0 =>
        simp only [Option.some.injEq] at h
        subst h
        exact tbgAttempt_length py _ _ _ heq0
      next heq0 =>
        split at h
        next r1 heq1 =>
          simp only [Option.some.injEq] at h
          subst h
          exact tbgAttempt_length py _ _ _ heq1
        next => simp at h

lemma workerChunkTranslate_length (geminiKey : Bool) (initOk : Nat → Bool) (py : PyLib)
    (gen2 : Nat → Nat → Option String) (texts : List String) (r : List String)
    (h : (workerChunkTranslate geminiKey initOk py gen2 texts).1 = some r) :
    r.length = texts.length := by
  unfold workerChunkTranslate at h
  split at h
  · exact translate_batch_gemini_length _ _ _ _ _ _ h
  · exact translate_batch_gemini_length _ _ _ _ _ _ h

lemma chunkResult_length (b : BatchEnv) (k : Nat) (c : List Cue) (tp : List String)
    (h : chunkResult b k c = some tp) : tp.length = c.length := by
  have := workerChunkTranslate_length _ _ _ _ _ _ h
  simpa using this

lemma translate_batch_gemini_count_le (geminiKey : Bool) (initOk : Bool) (py : PyLib)
    (gen : Nat → Option String) (texts : List String) :
    (translate_batch_gemini geminiKey initOk py gen texts).2 ≤ 2 := by
  unfold translate_batch_gemini
  split
  · simp
  · split
    · simp
    · split
      · simp
      · split <;> simp

lemma workerChunkTranslate_count_le (geminiKey : Bool) (initOk : Nat → Bool)
    (py : PyLib) (gen2 : Nat → Nat → Option String) (texts : List String) :
    (workerChunkTranslate geminiKey initOk py gen2 texts).2 ≤ 4 := by
  unfold workerChunkTranslate
  split
  · exact le_trans (translate_batch_gemini_count_le _ _ _ _ _) (by omega)
  · have h0 := translate_batch_gemini_count_le geminiKey (initOk 0) py (gen2 0) texts
    have h1 := translate_batch_gemini_count_le geminiKey (initOk 1) py (gen2 1) texts
    simp only
    omega

lemma renderChunks_length (b : BatchEnv) :
    ∀ (cs : List (List Cue)) (k : Nat), (renderChunks b k cs).length = cs.length := by
  intro cs
  induction cs with
  | nil => intro k; rfl
  | cons c rest ih => intro k; simp [renderChunks, ih]

lemma renderChunks_flatten_length (b : BatchEnv) :
    ∀ (cs : List (List Cue)) (k : Nat),
      ((renderChunks b k cs).flatten).length = cs.flatten.length := by
  intro cs
  induction cs with
  | nil => intro k; rfl
  | cons c rest ih =>
    intro k
    simp only [renderChunks, List.flatten_cons, List.length_append, ih]
    simp [renderChunk, renderCues_length]

lemma serveSubsAux_timeout (fileAt : Nat → Option String) :
    ∀ (fuel t : Nat), (∀ u, u < fuel → fileAt (t + u) = none) →
      serveSubsAux fileAt t fuel = placeholderResp := by
  intro fuel
  induction fuel with
  | zero => intro t _; rfl
  | succ f ih =>
    intro t hnone
    have h0 : fileAt t = none := by simpa using hnone 0 (by omega)
    simp only [serveSubsAux, h0]
    exact ih (t + 1) (fun u hu => by
      have := hnone (u + 1) (by omega)
      simpa [Nat.add_assoc, Nat.add_comm 1 u] using this)

lemma execCount_le_two (s : DedupState) : execCount s ≤ 2 := by
  unfold execCount
  split <;> split <;> omega

/-- Invariant of the dedup model: artifact present, nobody mid-pipeline,
nobody has executed the pipeline. -/
def DedupIdle (s : DedupState) : Prop :=
  s.artifact = true ∧ (∀ w, s.pc w ≠ WPC.running) ∧ (∀ w, s.worked w = false)

lemma dedupStep_idle (s : DedupState) (w : Fin 2) (h : DedupIdle s) :
    DedupIdle (dedupStep s w) := by
  obtain ⟨ha, hpc, hwk⟩ := h
  unfold dedupStep
  rcases hw : s.pc w with _ | _ | _
  · simp only [ha, if_true]
    refine ⟨rfl, ?_, hwk⟩
    intro v
    by_cases hv : v = w <;> simp [hv, hpc v]
  · exact absurd hw (hpc w)
  · exact ⟨ha, hpc, hwk⟩

lemma dedupRunFrom_idle (sched : List (Fin 2)) :
    ∀ (s : DedupState), DedupIdle s → DedupIdle (dedupRunFrom s sched) := by
  induction sched with
  | nil => intro s h; exact h
  | cons w rest ih =>
    intro s h
    exact ih (dedupStep s w) (dedupStep_idle s w h)

lemma getElem?_some_mem {α : Type} :
    ∀ (l : List α) (i : Nat) (a : α), l[i]? = some a → a ∈ l := by
  intro l
  induction l with
  | nil => intro i a h; simp at h
  | cons x xs ih =>
    intro i a h
    cases i with
    | zero => simp at h; simp [h]
    | succ j =>
      simp only [List.getElem?_cons_succ] at h
      exact List.mem_cons_of_mem x (ih j a h)

lemma chunkFinalTexts_none (ts : List String) : chunkFinalTexts none ts = ts := rfl

lemma chunkFinalTexts_some (tp ts : List String) (h : tp ≠ []) :
    chunkFinalTexts (some tp) ts = tp := by
  simp [chunkFinalTexts, pyTruthy, h]

/-! ## Concrete instances used by witnesses and counterexamples

The oracle instantiations below are consistent with the real library
behaviour on every string they are actually applied to: `json.loads`
raises on `"cannot translate"` and returns the two-element list on the
JSON array literal; neither `re.sub` pattern matches those strings, and
`re.split` on the quote-comma-quote pattern leaves them whole. -/

def exPyFail : PyLib := ⟨id, id, fun _ => none, fun s => [s]⟩

def exPyOk : PyLib :=
  ⟨id, id,
   fun s => if s = "[\"Ola\",\"Geral\"]" then some (some ["Ola", "Geral"]) else none,
   fun s => [s]⟩

def exCueA : Cue := ⟨"1\n00:00:01,000 --> 00:00:02,000", "Hello there"⟩

def exCueB : Cue := ⟨"2\n00:00:03,000 --> 00:00:04,000", "General Kenobi"⟩

def exBatchFail : BatchEnv :=
  ⟨true, fun _ _ => true, exPyFail, fun _ _ _ => some "cannot translate"⟩

def exBatchOk : BatchEnv :=
  ⟨true, fun _ _ => true, exPyOk, fun _ _ _ => some "[\"Ola\",\"Geral\"]"⟩

def exWorkerIdle : WorkerEnv :=
  ⟨true, (none, "Not Found"), fun _ => none, fun _ _ => none, true, true,
   exBatchFail, "models/gemini-2.5-flash", "tt0111161"⟩

/-- A non-empty model reply with no SRT timestamp in it. -/
def exBadOneShot : String := "Ola eu nao traduzi nada"

def exWorkerOneShot : WorkerEnv :=
  ⟨false, (some "http://x", "Hash Match"),
   fun _ => some "1\n00:00:01,000 --> 00:00:02,000\nHello\n",
   fun _ _ => some exBadOneShot, true, true,
   exBatchFail, "models/gemini-2.5-flash", "tt0111161"⟩

def exSearchHash : SearchEnv :=
  ⟨true, some (3, some 42), none, fun fid => if fid = 42 then some "http://dl" else none⟩

/-! ## Claims -/

/-- C1: for every subtitle document (list of parsed cues) run through the
worker's batch-fallback path, whatever mix of batches succeeds or fails,
the assembled `final_srt_content` is the provenance banner followed by
exactly one entry per input cue, in input order, each entry being the
cue's original head (index + timing line) verbatim, a newline, some
wrapped text, and a trailing newline — so cue count, order and heads are
preserved and only the text differs. -/
theorem c1_translation_fallback_cue_count_and_heads (b : BatchEnv)
    (method model : String) (subs : List Cue) :
    (workerFallback b method model subs).length = subs.length + 1 ∧
    (workerFallback b method model subs).head? = some (bannerBatch method model) ∧
    List.Forall₂ (fun sub entry =>
        ∃ t, entry = sub.head ++ "\n" ++ wrap_text t 44 ++ "\n")
      subs (workerFallback b method model subs).tail := by
  refine ⟨?_, rfl, ?_⟩
  · simp only [workerFallback, List.length_cons]
    rw [renderChunks_flatten_length b _ 0, chunksOf40_flatten]
  · have h := renderChunks_forall2 b 0 (chunksOf40 subs)
    rw [chunksOf40_flatten] at h
    exact h

/-- C1 witness: on a concrete two-cue document the fallback output has the
banner plus two entries. -/
theorem c1_witness :
    (workerFallback exBatchFail "Hash Match" "models/gemini-2.5-flash"
      [exCueA, exCueB]).length = 3 :=
  (c1_translation_fallback_cue_count_and_heads exBatchFail "Hash Match"
    "models/gemini-2.5-flash" [exCueA, exCueB]).1

/-- C2: in the batch-fallback path, failure domains are per batch: a batch
whose translation retry loop produced no result is rendered with the
original untranslated source texts (wrapped), a batch whose loop returned
a list is rendered with those translated texts pointwise — and any
returned list has exactly as many items as texts were sent (a
wrong-length reply is rejected inside the parser, so the batch counts as
failed); other batches are unaffected. -/
theorem c2_batch_fallback_isolation (b : BatchEnv) (method model : String)
    (subs : List Cue) :
    workerFallback b method model subs =
      bannerBatch method model :: (renderChunks b 0 (chunksOf40 subs)).flatten ∧
    (∀ i c, (chunksOf40 subs)[i]? = some c → chunkResult b i c = none →
      (renderChunks b 0 (chunksOf40 subs))[i]? =
        some (c.map (fun s => s.head ++ "\n" ++ wrap_text s.text 44 ++ "\n"))) ∧
    (∀ i c tp, (chunksOf40 subs)[i]? = some c → chunkResult b i c = some tp →
      tp.length = c.length ∧
      (renderChunks b 0 (chunksOf40 subs))[i]? =
        some (List.zipWith (fun s t => s.head ++ "\n" ++ wrap_text t 44 ++ "\n") c tp)) := by
  refine ⟨rfl, ?_, ?_⟩
  · intro i c hc hres
    rw [renderChunks_getElem? b _ 0 i, hc]
    simp only [Option.map_some']
    congr 1
    show renderChunk b (0 + i) c = _
    have hz : 0 + i = i := by omega
    rw [hz]
    unfold renderChunk
    rw [hres, chunkFinalTexts_none]
    simpa using renderCues_orig c []
  · intro i c tp hc hres
    have hlen : tp.length = c.length := chunkResult_length b i c tp hres
    refine ⟨hlen, ?_⟩
    rw [renderChunks_getElem? b _ 0 i, hc]
    simp only [Option.map_some']
    congr 1
    show renderChunk b (0 + i) c = _
    have hz : 0 + i = i := by omega
    rw [hz]
    have hcne : c ≠ [] := chunksOf40_ne_nil subs c (getElem?_some_mem _ i c hc)
    have htpne : tp ≠ [] := by
      intro hnil
      subst hnil
      simp at hlen
      exact hcne (List.length_eq_zero.mp hlen.symm)
    unfold renderChunk
    rw [hres, chunkFinalTexts_some tp _ htpne]
    simpa using renderCues_zip c [] tp hlen

/-- C2 witness: a concrete batch whose translation fails renders with the
original English texts. -/
theorem c2_witness :
    (renderChunks exBatchFail 0 (chunksOf40 [exCueA, exCueB]))[0]? =
      some ([exCueA, exCueB].map
        (fun s => s.head ++ "\n" ++ wrap_text s.text 44 ++ "\n")) :=
  (c2_batch_fallback_isolation exBatchFail "Hash Match" "models/gemini-2.5-flash"
    [exCueA, exCueB]).2.1 0 [exCueA, exCueB] (by decide) (by decide)

/-- C3: the claim says a model response lacking an SRT timestamp is
rejected by the one-shot path.  The code disagrees: after the timestamp
check fails, line 193 (`return out or None`) still returns any non-empty
output, so a timestamp-free reply is accepted by `_one_shot_try`,
propagated by `translate_srt_one_shot`, and persisted by the worker.
This contradicts the source's own inline comment on line 190 ("deve
conter algum timestamp SRT"), so the code, not the claim, is at fault. -/
theorem c3_one_shot_accepts_output_without_timestamps :
    hasSrtTimestamp exBadOneShot = false ∧
    _one_shot_try (some exBadOneShot) = some exBadOneShot ∧
    translate_srt_one_shot true (fun _ _ => some exBadOneShot)
      "1\n00:00:01,000 --> 00:00:02,000\nHello\n" = some exBadOneShot ∧
    worker exWorkerOneShot =
      [Effect.searchCall, Effect.downloadCall "http://x",
       Effect.writeFile (finalPath "tt0111161")
         (bannerOneShot "Hash Match" "models/gemini-2.5-flash" ++ exBadOneShot)] := by
  refine ⟨by decide, by decide, by decide, by decide⟩

/-- C4 counterexample: with two workers for the same key, the interleaving
"check A, check B, run A, run B" — both existence checks before either
write — makes both workers execute the pipeline, refuting "exactly one
worker invocation" for concurrent requests. -/
theorem c4_counterexample :
    execCount (dedupRun [0, 1, 0, 1]) = 2 ∧
    ¬ execCount (dedupRun [0, 1, 0, 1]) ≤ 1 := by decide

/-- C4 (amended): each lookup spawns its own worker thread and the only
duplicate suppression is the worker's initial non-atomic
artifact-existence check, so N concurrent lookups can execute the
pipeline up to N times (bounded by the number of requests); suppression
does work when the artifact is already present before a worker's check
(then no worker executes), and when the checks do not overlap the write
(sequential schedule: one execution). -/
theorem c4_amended_dedup_is_best_effort :
    (∀ sched : List (Fin 2), execCount (dedupRun sched) ≤ 2) ∧
    execCount (dedupRun [0, 0, 1]) = 1 ∧
    (∀ sched : List (Fin 2),
      execCount (dedupRunFrom ⟨true, fun _ => WPC.start, fun _ => false⟩ sched) = 0) := by
  refine ⟨fun sched => execCount_le_two _, by decide, fun sched => ?_⟩
  have h := dedupRunFrom_idle sched ⟨true, fun _ => WPC.start, fun _ => false⟩
    ⟨rfl, fun w => by simp, fun w => rfl⟩
  obtain ⟨-, -, hwk⟩ := h
  simp [execCount, hwk]

/-- C4 witness: the amended theorem applied to the sequential schedule. -/
theorem c4_witness : execCount (dedupRun [0, 0, 1]) = 1 :=
  c4_amended_dedup_is_best_effort.2.1

/-- C5: a worker invoked for a key whose final artifact file already
exists returns at the initial existence check (addon.py lines 329-331)
with an empty effect trace: no search, no download, no translation call,
no file write — the stored artifact is untouched. -/
theorem c5_worker_idempotent_on_existing_artifact (env : WorkerEnv)
    (h : env.artifactExists = true) : worker env = [] := by
  simp [worker, h]

/-- C5 witness: a concrete environment with the artifact present yields an
empty trace. -/
theorem c5_witness : worker exWorkerIdle = [] :=
  c5_worker_idempotent_on_existing_artifact exWorkerIdle rfl

/-- C6: when a video hash is supplied, the hash query returns at least one
result and its download link resolves, `search_english_sub` returns that
link tagged "Hash Match" having performed only the hash query and the one
download-link request — the catalog (IMDB popularity) tier is never
consulted. -/
theorem c6_hash_tier_short_circuits_catalog (env : SearchEnv) (imdbId : String)
    (h : String) (hint : Option String) (uq : String → String)
    (n total fid : Nat) (dl : String)
    (hkey : env.osKey = true)
    (hid : chParseNat (sReplace imdbId "tt" "").data = some n)
    (hresp : env.hashResp = some (total, some fid))
    (htotal : 0 < total)
    (hdl : env.dlLink fid = some dl) :
    search_english_sub env imdbId (some h) hint uq =
      ((some dl, "Hash Match"), [SEffect.hashQuery, SEffect.downloadReq fid]) ∧
    SEffect.catalogQuery ∉ (search_english_sub env imdbId (some h) hint uq).2 := by
  have hmain : search_english_sub env imdbId (some h) hint uq =
      ((some dl, "Hash Match"), [SEffect.hashQuery, SEffect.downloadReq fid]) := by
    unfold search_english_sub
    rw [hkey, hid, hresp]
    simp only [Bool.not_true, Bool.false_eq_true, if_false]
    rw [if_pos htotal]
    rw [hdl]
    rfl
  refine ⟨hmain, ?_⟩
  rw [hmain]
  simp

/-- C6 witness: a concrete provider whose hash tier hits. -/
theorem c6_witness :
    search_english_sub exSearchHash "tt0111161" (some "abcd1234") none id =
      ((some "http://dl", "Hash Match"),
        [SEffect.hashQuery, SEffect.downloadReq 42]) ∧
    SEffect.catalogQuery ∉
      (search_english_sub exSearchHash "tt0111161" (some "abcd1234") none id).2 :=
  c6_hash_tier_short_circuits_catalog exSearchHash "tt0111161" "abcd1234" none id
    111161 3 42 "http://dl" rfl (by decide) rfl (by decide) rfl

/-- C7 counterexample: the claim caps the external attempts per batch at
two, but the worker's retry loop (addon.py lines 391-396, two calls) and
the internal retry of `translate_batch_gemini` (line 154, two
`generate_content` attempts per call) compose: on a batch that keeps
failing, four external attempts are made. -/
theorem c7_counterexample :
    (workerChunkTranslate true (fun _ => true) exPyFail
      (fun _ _ => some "cannot translate") ["Hello there", "General Kenobi"]).2 = 4 ∧
    ¬ (workerChunkTranslate true (fun _ => true) exPyFail
      (fun _ _ => some "cannot translate") ["Hello there", "General Kenobi"]).2 ≤ 2 := by
  decide

/-- C7 (amended): a failing batch is retried with backoff at two levels —
the worker re-invokes the batch translation once, and each invocation
attempts the external capability at most twice — so at most four external
attempts are made per batch before the untranslated source text is
substituted. -/
theorem c7_amended_at_most_four_attempts (geminiKey : Bool) (initOk : Nat → Bool)
    (py : PyLib) (gen2 : Nat → Nat → Option String) (texts : List String) :
    (workerChunkTranslate geminiKey initOk py gen2 texts).2 ≤ 4 :=
  workerChunkTranslate_count_le geminiKey initOk py gen2 texts

/-- C7 witness: the bound applied at a concrete batch. -/
theorem c7_witness :
    (workerChunkTranslate true (fun _ => true) exPyFail
      (fun _ _ => some "x") ["Hello there"]).2 ≤ 4 :=
  c7_amended_at_most_four_attempts true (fun _ => true) exPyFail
    (fun _ _ => some "x") ["Hello there"]

/-- C8: when the artifact never appears during the 60 one-second polls,
`serve_subs` returns the synthetic placeholder with HTTP 200 and the
subtitle content type; the placeholder is a structurally valid SRT
document (the source's own block parser extracts exactly one cue with
index line "1", a well-formed timestamp line and human-readable text);
nothing is written, and a later request against a store that has the
artifact receives the real artifact. -/
theorem c8_timeout_placeholder_valid (fileAt : Nat → Option String)
    (h : ∀ t, t < 60 → fileAt t = none) :
    serve_subs fileAt = placeholderResp ∧
    placeholderResp.status = 200 ∧
    placeholderResp.contentType = some "application/x-subrip" ∧
    parseSrtBlocks placeholderBody =
      [⟨"1\n00:00:01,000 --> 00:00:10,000",
        "Traduzindo com IA... Aguarde alguns segundos e volte a abrir as legendas."⟩] ∧
    hasSrtTimestamp placeholderBody = true ∧
    (∀ g : Nat → Option String, ∀ c, g 0 = some c →
      serve_subs g = ⟨c, 200, none⟩) := by
  refine ⟨?_, rfl, rfl, by decide, by decide, ?_⟩
  · exact serveSubsAux_timeout fileAt 60 0 (fun u hu => by simpa using h u hu)
  · intro g c hg
    unfold serve_subs serveSubsAux
    rw [hg]

/-- C8 witness: a store that never has the file yields the placeholder. -/
theorem c8_witness : serve_subs (fun _ => none) = placeholderResp :=
  (c8_timeout_placeholder_valid (fun _ => none) (fun _ _ => rfl)).1

/-- C9: whenever `_parse_json_array_strict` returns normally with an
expected length `n`, the result is a list of exactly `n` strings; both
return sites are guarded by the length check, so an output from which no
`n`-element array can be recovered raises instead. -/
theorem c9_parser_returns_exact_length (py : PyLib) (s : String) (n : Nat)
    (r : List String) (h : _parse_json_array_strict py s (some n) = some r) :
    r.length = n :=
  parse_strict_length py s n r h

/-- C9 witness: a concrete two-element JSON array parsed with expected
length 2. -/
theorem c9_witness : (["Ola", "Geral"] : List String).length = 2 :=
  c9_parser_returns_exact_length exPyOk "[\"Ola\",\"Geral\"]" 2 ["Ola", "Geral"]
    (by decide)

/-- C10: the cache key carries the season/episode component only when both
are present and non-zero (`if season and episode:`); a season without an
episode, or either value 0, derives the same key — hence the same job and
artifact path — as supplying neither. -/
theorem c10_cache_key_requires_both_season_and_episode (imdbId : String)
    (vh : Option String) (s e : Nat) :
    get_file_hash imdbId (some s) none vh = get_file_hash imdbId none none vh ∧
    get_file_hash imdbId none (some e) vh = get_file_hash imdbId none none vh ∧
    get_file_hash imdbId (some 0) (some e) vh = get_file_hash imdbId none none vh ∧
    get_file_hash imdbId (some s) (some 0) vh = get_file_hash imdbId none none vh := by
  refine ⟨rfl, rfl, ?_, ?_⟩
  · unfold get_file_hash
    simp
  · unfold get_file_hash
    simp

/-- C10 witness: a concrete season-only request keys like a bare request. -/
theorem c10_witness :
    get_file_hash "tt0111161" (some 5) none (some "hashX") =
      get_file_hash "tt0111161" none none (some "hashX") :=
  (c10_cache_key_requires_both_season_and_episode "tt0111161" (some "hashX") 5 0).1
